import Mathlib

/-!
Verification of the Notification Dispatch & Delivery-Tracking Engine
(`NotificationsService` in `src/notifications/notifications.service.ts`,
entity in `src/entities/notification.entity.ts`).

The service is embedded shallowly: the TypeORM repositories become an
explicit `Store` (a list of user ids and a list of notification records),
each service method becomes a pure function threading the store, a thrown
Nest exception becomes an `Except` error value (an error result leaves the
store untouched, matching a transaction that aborts before any save), and
the current wall-clock time is passed as an explicit `now : Nat`
(milliseconds since the epoch) per call.  Timestamps are `Option Nat`.
-/

namespace SuperSquads

/-- The `NotificationType` enum from `notification.entity.ts` (the DTO enum in
`notification.dto.ts` has the same constructors and the service maps one to
the other by the identity correspondence `mapNotificationType`). -/
inductive NotificationType where
  | email
  | push
  | sms
  | in_app
deriving Repr, DecidableEq

/-- The `NotificationStatus` enum from `notification.entity.ts` (again mirrored
verbatim by the DTO enum). -/
inductive NotificationStatus where
  | pending
  | sent
  | delivered
  | failed
  | bounced
deriving Repr, DecidableEq

/-- The `NotificationPriority` enum from `notification.dto.ts`. -/
inductive NotificationPriority where
  | low
  | normal
  | high
  | urgent
deriving Repr, DecidableEq

/-- A value stored in the JSON `payload` map: either a plain string (e.g.
the `scheduled_at` ISO string or the `bulk_id` token) or a priority enum
value. -/
inductive PayloadValue where
  | str : String → PayloadValue
  | prio : NotificationPriority → PayloadValue
deriving Repr, DecidableEq

/-- The open key-value `payload` map (`Record<string, any>` with `jsonb`
storage), embedded as an association list. -/
def Payload : Type := List (String × PayloadValue)

instance : DecidableEq Payload := by
  unfold Payload
  infer_instance

instance : Repr Payload := by
  unfold Payload
  infer_instance

/-- JS object property lookup on the payload map. -/
def payloadGet (p : Payload) (k : String) : Option PayloadValue :=
  (p.find? (fun kv => decide (kv.1 = k))).map (fun kv => kv.2)

/-- JS object spread `{...p, k: v}`: the key `k` now maps to `v` and every
other key keeps its binding. -/
def payloadSet (p : Payload) (k : String) (v : PayloadValue) : Payload :=
  (k, v) :: p.filter (fun kv => decide (kv.1 ≠ k))

/-- The `Notification` entity (`notification.entity.ts`).  `id` is the
uuid primary key, timestamps are epoch milliseconds. -/
structure Notification where
  id : String
  recipient_id : String
  type : NotificationType
  template : String
  subject : String
  content : String
  payload : Payload
  status : NotificationStatus
  external_id : Option String
  error_message : Option String
  retry_count : Nat
  sent_at : Option Nat
  delivered_at : Option Nat
  opened_at : Option Nat
  clicked_at : Option Nat
  created_at : Nat
  updated_at : Nat
deriving Repr, DecidableEq

/-- The persistent state the service reads and writes: the `users` table
(only ids matter to this subsystem — the recipient-resolver capability)
and the `notifications` table. -/
structure Store where
  users : List String
  notifications : List Notification
deriving Repr, DecidableEq

/-- The primary-key invariant the database enforces on the
`notifications` table: no two rows share an `id`. -/
abbrev Store.idsNodup (s : Store) : Prop :=
  (s.notifications.map (fun n => n.id)).Nodup

/-- The Nest exceptions the service throws. -/
inductive ServiceError where
  | notFound : String → ServiceError
  | badRequest : String → ServiceError
deriving Repr, DecidableEq

instance {ε α : Type} [DecidableEq ε] [DecidableEq α] :
    DecidableEq (Except ε α) := fun x y =>
  match x, y with
  | .ok a, .ok b => decidable_of_iff (a = b) (by simp)
  | .ok _, .error _ => isFalse (by simp)
  | .error _, .ok _ => isFalse (by simp)
  | .error e, .error f => decidable_of_iff (e = f) (by simp)

/-- The `notificationRepository.findOne({ where: { id } })`. -/
def findNotification (s : Store) (notificationId : String) : Option Notification :=
  s.notifications.find? (fun n => decide (n.id = notificationId))

/-- The `notificationRepository.save(n')` on an entity previously loaded as
`n`: the row with `n`'s primary key is overwritten with `n'`. -/
def saveNotification (s : Store) (n n' : Notification) : Store :=
  { s with notifications :=
      s.notifications.map (fun m => if m.id = n.id then n' else m) }

/-- The `CreateNotificationDto` (`notification.dto.ts`).  `template` is kept
as its string value; `scheduled_at` is the validated ISO date string. -/
structure CreateNotificationDto where
  recipient_id : String
  type : NotificationType
  template : String
  subject : String
  content : String
  payload : Option Payload
  priority : Option NotificationPriority
  scheduled_at : Option String
deriving Repr, DecidableEq

/-- The `mapNotificationType` from the service: the DTO and entity enums have
identical constructors, so the map is the identity correspondence. -/
def mapNotificationType : NotificationType → NotificationType
  | .email => .email
  | .push => .push
  | .sms => .sms
  | .in_app => .in_app

/-- The `mapNotificationStatus` from the service, likewise the identity
correspondence between the two five-constructor enums. -/
def mapNotificationStatus : NotificationStatus → NotificationStatus
  | .pending => .pending
  | .sent => .sent
  | .delivered => .delivered
  | .failed => .failed
  | .bounced => .bounced

/-- The `priority` as a string is one of `low/normal/high/urgent`, all truthy,
so `if (createDto.priority)` holds exactly when the field is present. -/
def priorityTruthy (p : Option NotificationPriority) : Bool :=
  p.isSome

/-- JS truthiness of an optional string: `undefined`, `null` and the empty
string are falsy. -/
def strTruthy (s : Option String) : Bool :=
  match s with
  | some v => decide (v ≠ "")
  | none => false

/-- The `NotificationsService.createNotification`.  `newId` is the uuid the
database generates for the inserted row; `now` the current time.  Fails
with `NotFoundException('Recipient user not found')` when the recipient id
is not in the users table; otherwise builds the entity exactly as the
source does (status `pending`, `priority` and `scheduled_at` folded into
`payload` when truthy) and appends it to the table. -/
def createNotification (s : Store) (dto : CreateNotificationDto)
    (newId : String) (now : Nat) : Except ServiceError (Notification × Store) :=
  if dto.recipient_id ∈ s.users then
    let basePayload := dto.payload.getD []
    let payload1 :=
      match dto.priority with
      | some p => payloadSet basePayload "priority" (.prio p)
      | none => basePayload
    let payload2 :=
      if strTruthy dto.scheduled_at then
        payloadSet payload1 "scheduled_at" (.str (dto.scheduled_at.getD ""))
      else payload1
    let n : Notification :=
      { id := newId
        recipient_id := dto.recipient_id
        type := mapNotificationType dto.type
        template := dto.template
        subject := dto.subject
        content := dto.content
        payload := payload2
        status := .pending
        external_id := none
        error_message := none
        retry_count := 0
        sent_at := none
        delivered_at := none
        opened_at := none
        clicked_at := none
        created_at := now
        updated_at := now }
    .ok (n, { s with notifications := s.notifications ++ [n] })
  else
    .error (.notFound "Recipient user not found")

/-- The `BulkNotificationDto` (`notification.dto.ts`). -/
structure BulkNotificationDto where
  recipient_ids : List String
  type : NotificationType
  template : String
  subject : String
  content : String
  payload : Option Payload
  priority : Option NotificationPriority
deriving Repr, DecidableEq

/-- The entity built for one bulk recipient (the loop body of
`createBulkNotifications`): shared payload extended with the effective
`priority` (`bulkDto.priority || NORMAL`) and the `bulk_` time token. -/
def mkBulkNotification (dto : BulkNotificationDto) (recipientId newId : String)
    (now : Nat) : Notification :=
  { id := newId
    recipient_id := recipientId
    type := mapNotificationType dto.type
    template := dto.template
    subject := dto.subject
    content := dto.content
    payload :=
      payloadSet
        (payloadSet (dto.payload.getD []) "priority"
          (.prio (dto.priority.getD .normal)))
        "bulk_id" (.str ("bulk_" ++ toString now))
    status := .pending
    external_id := none
    error_message := none
    retry_count := 0
    sent_at := none
    delivered_at := none
    opened_at := none
    clicked_at := none
    created_at := now
    updated_at := now }

/-- The `for (const recipientId of foundRecipientIds)` loop: one entity per
found recipient, with generated ids supplied by `newIds` per index. -/
def buildBulkNotifications (dto : BulkNotificationDto) (now : Nat)
    (newIds : Nat → String) : List String → Nat → List Notification
  | [], _ => []
  | rid :: rest, i =>
      mkBulkNotification dto rid (newIds i) now ::
        buildBulkNotifications dto now newIds rest (i + 1)

/-- Result shape of `createBulkNotifications`. -/
structure BulkResult where
  notifications : List Notification
  total_created : Nat
  failed_recipients : List String
deriving Repr, DecidableEq

/-- The `NotificationsService.createBulkNotifications`.  The recipient lookup
`userRepository.find({ where: { id: In(recipient_ids) } })` returns the
user rows whose id occurs in the request, each row once; the loop then
creates one record per found row and the filter reports every requested id
with no matching row.  The whole synchronous call runs at time `now`. -/
def createBulkNotifications (s : Store) (dto : BulkNotificationDto)
    (newIds : Nat → String) (now : Nat) : BulkResult × Store :=
  let foundRecipientIds := s.users.filter (fun u => decide (u ∈ dto.recipient_ids))
  let failedRecipientIds :=
    dto.recipient_ids.filter (fun id => decide (id ∉ foundRecipientIds))
  let notifications := buildBulkNotifications dto now newIds foundRecipientIds 0
  ({ notifications := notifications
     total_created := notifications.length
     failed_recipients := failedRecipientIds },
   { s with notifications := s.notifications ++ notifications })

/-- The `UpdateNotificationDto` (`notification.dto.ts`): every field optional;
a present field overwrites the matching entity column. -/
structure UpdateNotificationDto where
  status : Option NotificationStatus
  external_id : Option String
  error_message : Option String
  retry_count : Option Nat
  sent_at : Option Nat
  delivered_at : Option Nat
  opened_at : Option Nat
  clicked_at : Option Nat
deriving Repr, DecidableEq

/-- A `UpdateNotificationDto` with no field present. -/
def emptyUpdateDto : UpdateNotificationDto :=
  { status := none, external_id := none, error_message := none
    retry_count := none, sent_at := none, delivered_at := none
    opened_at := none, clicked_at := none }

/-- The field-by-field `if (updateDto.x !== undefined)` block of
`updateNotification`, followed by the `@UpdateDateColumn` touch on save. -/
def applyUpdate (n : Notification) (dto : UpdateNotificationDto)
    (now : Nat) : Notification :=
  let n1 := match dto.status with
    | some st => { n with status := mapNotificationStatus st }
    | none => n
  let n2 := match dto.external_id with
    | some e => { n1 with external_id := some e }
    | none => n1
  let n3 := match dto.error_message with
    | some e => { n2 with error_message := some e }
    | none => n2
  let n4 := match dto.retry_count with
    | some rc => { n3 with retry_count := rc }
    | none => n3
  let n5 := match dto.sent_at with
    | some t => { n4 with sent_at := some t }
    | none => n4
  let n6 := match dto.delivered_at with
    | some t => { n5 with delivered_at := some t }
    | none => n5
  let n7 := match dto.opened_at with
    | some t => { n6 with opened_at := some t }
    | none => n6
  let n8 := match dto.clicked_at with
    | some t => { n7 with clicked_at := some t }
    | none => n7
  { n8 with updated_at := now }

/-- The `NotificationsService.updateNotification`: load by id (404 when
absent), overwrite each present DTO field — the status field included,
with no check of the previous status — and save. -/
def updateNotification (s : Store) (notificationId : String)
    (dto : UpdateNotificationDto) (now : Nat) :
    Except ServiceError (Notification × Store) :=
  match findNotification s notificationId with
  | none => .error (.notFound "Notification not found")
  | some n =>
      let n' := applyUpdate n dto now
      .ok (n', saveNotification s n n')

/-- The `findOne` filter of `markAsRead`: id, owning recipient and channel
`in_app` all at once. -/
def inAppMatch (notificationId userId : String) (n : Notification) : Bool :=
  decide (n.id = notificationId) && decide (n.recipient_id = userId) &&
    decide (n.type = NotificationType.in_app)

/-- The `NotificationsService.markAsRead`: only an in-app notification owned
by the calling user is found; a null `opened_at` is stamped with `now` and
saved, an already-set `opened_at` is returned untouched (no save). -/
def markAsRead (s : Store) (notificationId userId : String) (now : Nat) :
    Except ServiceError (Notification × Store) :=
  match s.notifications.find? (inAppMatch notificationId userId) with
  | none => .error (.notFound "In-app notification not found")
  | some n =>
      match n.opened_at with
      | none =>
          let n' := { n with opened_at := some now, updated_at := now }
          .ok (n', saveNotification s n n')
      | some _ => .ok (n, s)

/-- Rows touched by the `markAllAsRead` update query: the caller's unread
in-app notifications. -/
def unreadInApp (userId : String) (n : Notification) : Bool :=
  decide (n.recipient_id = userId) &&
    decide (n.type = NotificationType.in_app) && n.opened_at.isNone

/-- The `NotificationsService.markAllAsRead`: one update query setting
`opened_at = now` on every matching row, returning the affected count. -/
def markAllAsRead (s : Store) (userId : String) (now : Nat) : Nat × Store :=
  let affected := s.notifications.countP (unreadInApp userId)
  (affected,
   { s with notifications :=
       s.notifications.map (fun n =>
         if unreadInApp userId n then
           { n with opened_at := some now, updated_at := now }
         else n) })

/-- The query filter shared by `getNotificationById` and
`deleteNotification`: match on id, and on the recipient only when the
optional `userId` is truthy (`if (userId)` — `undefined` and the empty
string both skip the access filter). -/
def idScopedMatch (notificationId : String) (userId : Option String)
    (n : Notification) : Bool :=
  decide (n.id = notificationId) &&
    (if strTruthy userId then decide (n.recipient_id = userId.getD "") else true)

/-- The `NotificationsService.getNotificationById`: a pure read. -/
def getNotificationById (s : Store) (notificationId : String)
    (userId : Option String) : Except ServiceError Notification :=
  match s.notifications.find? (idScopedMatch notificationId userId) with
  | none => .error (.notFound "Notification not found or access denied")
  | some n => .ok n

/-- The `NotificationsService.deleteNotification`: same scoped lookup, then
`repository.remove` deletes the loaded row (by its primary key). -/
def deleteNotification (s : Store) (notificationId : String)
    (userId : Option String) : Except ServiceError Store :=
  match s.notifications.find? (idScopedMatch notificationId userId) with
  | none => .error (.notFound "Notification not found or access denied")
  | some n =>
      .ok { s with notifications :=
              s.notifications.filter (fun m => decide (m.id ≠ n.id)) }

/-- The reset block of `retryNotification`: `status = PENDING`,
`retry_count + 1`, `error_message = null`, with the `@UpdateDateColumn`
touch of the following save. -/
def retryReset (n : Notification) (now : Nat) : Notification :=
  { n with
    status := .pending
    retry_count := n.retry_count + 1
    error_message := none
    updated_at := now }

/-- The `NotificationsService.retryNotification`: 404 when the id is unknown,
400 (`'Only failed notifications can be retried'`) when the status is not
`failed` — the store is left untouched — and otherwise the reset to
`pending` with the retry counter bumped and the error message cleared. -/
def retryNotification (s : Store) (notificationId : String) (now : Nat) :
    Except ServiceError (Notification × Store) :=
  match findNotification s notificationId with
  | none => .error (.notFound "Notification not found")
  | some n =>
      if n.status = NotificationStatus.failed then
        .ok (retryReset n now, saveNotification s n (retryReset n now))
      else
        .error (.badRequest "Only failed notifications can be retried")

/-- The `WHERE recipient_id = :userId` scope applied by every stats query
when a truthy `userId` is given (`userId ? '...' : '1=1'`). -/
def scopedNotifications (s : Store) (userId : Option String) : List Notification :=
  if strTruthy userId then
    s.notifications.filter (fun n => decide (n.recipient_id = userId.getD ""))
  else s.notifications

/-- The `COUNT(*) ... GROUP BY status` read back through `byStatus[st] || 0`. -/
def countStatus (ns : List Notification) (st : NotificationStatus) : Nat :=
  ns.countP (fun n => decide (n.status = st))

/-- JS `Math.round`: for the nonnegative rationals produced by the stats
queries this is `⌊q + 1/2⌋`. -/
def jsRound (q : ℚ) : ℤ :=
  ⌊q + 1 / 2⌋

/-- Rounding to two decimal places, `Math.round(x * 100) / 100`. -/
def round2 (q : ℚ) : ℚ :=
  (jsRound (q * 100) : ℚ) / 100

/-- The fields of the `getNotificationStats` result the delivery-rate
claims are about (counts and the three engagement rates; the by-type /
by-template breakdowns and the time-window fields are independent
aggregations over the same scoped rows). -/
structure NotificationStats where
  total_notifications : Nat
  delivery_rate : ℚ
  open_rate : ℚ
  click_rate : ℚ
  failed_notifications : Nat
deriving Repr, DecidableEq

/-- The `NotificationsService.getNotificationStats`, restricted to the rate
computation: status counts feed `deliveryRate`, the `opened_at IS NOT
NULL` count feeds `openRate`, the `clicked_at IS NOT NULL` count feeds
`clickRate`, each guarded against a zero denominator and rounded to two
decimals exactly as in the source. -/
def getNotificationStats (s : Store) (userId : Option String) : NotificationStats :=
  let ns := scopedNotifications s userId
  let deliveredCount := countStatus ns .delivered
  let sentCount := countStatus ns .sent
  let failedCount := countStatus ns .failed
  let totalSent := deliveredCount + sentCount + failedCount
  let deliveryRate : ℚ :=
    if totalSent > 0 then
      (((deliveredCount : ℚ) + (sentCount : ℚ)) / (totalSent : ℚ)) * 100
    else 0
  let openedCount := ns.countP (fun n => n.opened_at.isSome)
  let openRate : ℚ :=
    if deliveredCount + sentCount > 0 then
      ((openedCount : ℚ) / ((deliveredCount : ℚ) + (sentCount : ℚ))) * 100
    else 0
  let clickedCount := ns.countP (fun n => n.clicked_at.isSome)
  let clickRate : ℚ :=
    if openedCount > 0 then ((clickedCount : ℚ) / (openedCount : ℚ)) * 100
    else 0
  { total_notifications := ns.length
    delivery_rate := round2 deliveryRate
    open_rate := round2 openRate
    click_rate := round2 clickRate
    failed_notifications := failedCount }

/-! ### Concrete fixtures used by witnesses and counterexamples -/

/-- A plain freshly-created notification record for the user `alice`. -/
def baseNotif : Notification :=
  { id := "n1"
    recipient_id := "alice"
    type := .email
    template := "welcome"
    subject := "hello"
    content := "welcome aboard"
    payload := []
    status := .pending
    external_id := none
    error_message := none
    retry_count := 0
    sent_at := none
    delivered_at := none
    opened_at := none
    clicked_at := none
    created_at := 0
    updated_at := 0 }

/-- A plain single-notification create request for `alice`. -/
def baseCreateDto : CreateNotificationDto :=
  { recipient_id := "alice"
    type := .email
    template := "welcome"
    subject := "hello"
    content := "welcome aboard"
    payload := none
    priority := some .high
    scheduled_at := some "2024-01-20T09:00:00.000Z" }

/-- A store whose only user is `alice`, with no notifications yet. -/
def aliceStore : Store :=
  { users := ["alice"], notifications := [] }

/-- A `failed` notification with two earlier attempts on record. -/
def failedNotif : Notification :=
  { baseNotif with status := .failed, retry_count := 2, error_message := some "smtp timeout" }

/-- A store holding exactly the failed notification. -/
def retryStore : Store :=
  { users := ["alice"], notifications := [failedNotif] }

/-- An unread in-app notification belonging to `alice`. -/
def inAppNotif : Notification :=
  { baseNotif with id := "n3", type := .in_app }

/-- A store holding exactly the unread in-app notification. -/
def inAppStore : Store :=
  { users := ["alice"], notifications := [inAppNotif] }

/-- A notification already confirmed `delivered`. -/
def deliveredNotif : Notification :=
  { baseNotif with id := "n4", status := .delivered, sent_at := some 40, delivered_at := some 50 }

/-- A store holding exactly the delivered notification. -/
def deliveredStore : Store :=
  { users := ["alice"], notifications := [deliveredNotif] }

/-- A status-only update request demoting to `pending` — the shape of a
late or duplicate status callback. -/
def demoteDto : UpdateNotificationDto :=
  { emptyUpdateDto with status := some .pending }

/-- An update request resetting the retry counter to zero. -/
def zeroRetryDto : UpdateNotificationDto :=
  { emptyUpdateDto with retry_count := some 0 }

/-- A bulk request naming the same existing recipient twice. -/
def dupBulkDto : BulkNotificationDto :=
  { recipient_ids := ["alice", "alice"]
    type := .email
    template := "newsletter"
    subject := "news"
    content := "monthly news"
    payload := none
    priority := none }

/-- The spec's bulk example: recipients `[A, B, C]` where only `B` does
not exist. -/
def bulkDtoABC : BulkNotificationDto :=
  { recipient_ids := ["A", "B", "C"]
    type := .email
    template := "newsletter"
    subject := "news"
    content := "monthly news"
    payload := none
    priority := some .low }

/-- The matching user store for the bulk example: `A` and `C` exist. -/
def bulkStore : Store :=
  { users := ["A", "C"], notifications := [] }

/-- A generated-id supply for bulk inserts. -/
def bulkIds (i : Nat) : String :=
  "b" ++ toString i

/-- A store with one delivered-and-engaged notification and one failed
one: delivery rate 50%, open rate 100%, click rate 100%. -/
def statsStore : Store :=
  { users := ["alice"]
    notifications :=
      [{ deliveredNotif with opened_at := some 60, clicked_at := some 61 },
       { baseNotif with id := "n6", status := .failed }] }

/-! ### Association-list lemmas about the payload map -/

theorem payloadGet_set_same (p : Payload) (k : String) (v : PayloadValue) :
    payloadGet (payloadSet p k v) k = some v := by
  simp [payloadGet, payloadSet]

theorem find?_filter_other (p : Payload) (k k' : String) (h : k ≠ k') :
    (p.filter (fun kv => decide (kv.1 ≠ k'))).find? (fun kv => decide (kv.1 = k)) =
      p.find? (fun kv => decide (kv.1 = k)) := by
  induction p with
  | nil => rfl
  | cons kv rest ih =>
      by_cases hkk : kv.1 = k'
      · have hk : ¬ (kv.1 = k) := by
          rw [hkk]
          exact fun hh => h hh.symm
        rw [List.filter_cons_of_neg (by simp [hkk]),
          List.find?_cons_of_neg _ (by simp [hk]), ih]
      · rw [List.filter_cons_of_pos (by simp [hkk])]
        by_cases hk : kv.1 = k
        · rw [List.find?_cons_of_pos _ (by simp [hk]),
            List.find?_cons_of_pos _ (by simp [hk])]
        · rw [List.find?_cons_of_neg _ (by simp [hk]),
            List.find?_cons_of_neg _ (by simp [hk]), ih]

theorem payloadGet_set_other (p : Payload) (k k' : String) (v : PayloadValue)
    (h : k ≠ k') : payloadGet (payloadSet p k' v) k = payloadGet p k := by
  unfold payloadGet payloadSet
  rw [List.find?_cons_of_neg _ (by simpa using Ne.symm h),
    find?_filter_other p k k' h]

/-! ### C4 — recipient validation on single dispatch -/

/-- C4: `createNotification` fails (and then precisely with the
`Recipient user not found` not-found error) exactly when the requested
`recipient_id` is absent from the user store; a success only appends the
one new record, and in the `Except` embedding an error result carries no
successor store, so a failed dispatch leaves the store unchanged. -/
theorem createNotification_fails_iff_no_recipient (s : Store)
    (dto : CreateNotificationDto) (newId : String) (now : Nat) :
    ((∃ e, createNotification s dto newId now = .error e) ↔
      dto.recipient_id ∉ s.users) ∧
    (dto.recipient_id ∉ s.users →
      createNotification s dto newId now =
        .error (.notFound "Recipient user not found")) ∧
    (∀ n s', createNotification s dto newId now = .ok (n, s') →
      s'.users = s.users ∧ s'.notifications = s.notifications ++ [n]) := by
  by_cases hmem : dto.recipient_id ∈ s.users
  · refine ⟨⟨?_, fun hn => absurd hmem hn⟩, fun hn => absurd hmem hn, ?_⟩
    · rintro ⟨e, he⟩
      rw [createNotification, if_pos hmem] at he
      exact absurd he (by simp)
    · intro n s' h
      rw [createNotification, if_pos hmem] at h
      obtain ⟨hn, hs⟩ : _ ∧ _ = s' := by
        simpa using h
      subst hs
      exact ⟨rfl, by rw [hn]⟩
  · refine ⟨⟨fun _ => hmem,
      fun _ => ⟨.notFound "Recipient user not found", ?_⟩⟩, fun _ => ?_, ?_⟩
    · rw [createNotification, if_neg hmem]
    · rw [createNotification, if_neg hmem]
    · intro n s' h
      rw [createNotification, if_neg hmem] at h
      exact absurd h (by simp)

/-- Closed instance of the C4 theorem: dispatching to `"bob"` against a
store whose only user is `"alice"` fails with the recipient error. -/
theorem createNotification_fails_iff_no_recipient_witness :
    createNotification { users := ["alice"], notifications := [] }
        { baseCreateDto with recipient_id := "bob" } "n9" 5 =
      .error (.notFound "Recipient user not found") :=
  (createNotification_fails_iff_no_recipient
      { users := ["alice"], notifications := [] }
      { baseCreateDto with recipient_id := "bob" } "n9" 5).2.1 (by decide)

/-! ### C7 — pending status and payload-folded priority / schedule -/

/-- C7: a successful single dispatch creates the record with status
`pending`, and a supplied `priority` or `scheduled_at` is stored under the
matching key of the record's `payload` map — the `Notification` entity has
no first-class column for either.  The `scheduled_at ≠ some ""` hypothesis
records the DTO boundary: `@IsDateString()` rejects the empty string, so
the service only ever sees a nonempty date string there. -/
theorem createNotification_pending_and_payload (s : Store)
    (dto : CreateNotificationDto) (newId : String) (now : Nat)
    (hrec : dto.recipient_id ∈ s.users) (hsched : dto.scheduled_at ≠ some "") :
    ∃ n s', createNotification s dto newId now = .ok (n, s') ∧
      n.status = .pending ∧
      (∀ p, dto.priority = some p →
        payloadGet n.payload "priority" = some (.prio p)) ∧
      (∀ t, dto.scheduled_at = some t →
        payloadGet n.payload "scheduled_at" = some (.str t)) := by
  rw [createNotification, if_pos hrec]
  refine ⟨_, _, rfl, rfl, ?_, ?_⟩
  · intro p hp
    by_cases hs : strTruthy dto.scheduled_at = true
    · rw [if_pos hs, payloadGet_set_other _ _ _ _ (by decide), hp,
        payloadGet_set_same]
    · rw [if_neg hs, hp, payloadGet_set_same]
  · intro t ht
    have hsne : t ≠ "" := by
      intro hh
      exact hsched (by rw [ht, hh])
    have hs : strTruthy dto.scheduled_at = true := by
      simp [strTruthy, ht, hsne]
    rw [if_pos hs, ht]
    simpa using payloadGet_set_same _ "scheduled_at" (.str t)

/-- Closed instance of the C7 theorem: the record created for `alice` with
priority `high` and a schedule carries both inside its payload and has
status `pending`. -/
theorem createNotification_pending_and_payload_witness :
    ∃ n s', createNotification { users := ["alice"], notifications := [] }
        baseCreateDto "n2" 7 = .ok (n, s') ∧
      n.status = .pending ∧
      (∀ p, baseCreateDto.priority = some p →
        payloadGet n.payload "priority" = some (.prio p)) ∧
      (∀ t, baseCreateDto.scheduled_at = some t →
        payloadGet n.payload "scheduled_at" = some (.str t)) :=
  createNotification_pending_and_payload
    { users := ["alice"], notifications := [] } baseCreateDto "n2" 7
    (by decide) (by decide)

/-! ### C2 — retry contract -/

/-- C2: `retryNotification` 404s on an unknown id; on a notification whose
status is not `failed` it raises the bad-request error (the `Except`
embedding returns no successor store, so nothing is mutated); and on a
`failed` notification it succeeds, resetting the status to `pending`,
incrementing `retry_count` by exactly one and clearing `error_message`. -/
theorem retryNotification_contract (s : Store) (id : String) (now : Nat) :
    (findNotification s id = none →
      retryNotification s id now = .error (.notFound "Notification not found")) ∧
    (∀ n, findNotification s id = some n → n.status ≠ .failed →
      retryNotification s id now =
        .error (.badRequest "Only failed notifications can be retried")) ∧
    (∀ n, findNotification s id = some n → n.status = .failed →
      ∃ n' s', retryNotification s id now = .ok (n', s') ∧
        n'.status = .pending ∧ n'.retry_count = n.retry_count + 1 ∧
        n'.error_message = none) := by
  refine ⟨?_, ?_, ?_⟩
  · intro h
    rw [retryNotification, h]
  · intro n hfind hst
    rw [retryNotification, hfind]
    simp [hst]
  · intro n hfind hst
    refine ⟨retryReset n now, saveNotification s n (retryReset n now),
      ?_, rfl, rfl, rfl⟩
    rw [retryNotification, hfind]
    simp [hst]

/-- Closed instance of the C2 theorem: retrying a `failed` record with
`retry_count = 2` yields `pending`, `retry_count = 3`, no error message. -/
theorem retryNotification_contract_witness :
    ∃ n' s', retryNotification retryStore "n1" 9 = .ok (n', s') ∧
      n'.status = .pending ∧ n'.retry_count = failedNotif.retry_count + 1 ∧
      n'.error_message = none :=
  (retryNotification_contract retryStore "n1" 9).2.2 failedNotif
    (by decide) (by decide)

/-! ### General lemmas on saving a loaded record back -/

theorem mapNotificationStatus_id (st : NotificationStatus) :
    mapNotificationStatus st = st := by
  cases st <;> rfl

/-- If `find?` located `n` and `n'` (the mutated copy sharing `n`'s
primary key) still satisfies the filter, then after the save the same
query locates `n'`. -/
theorem find?_map_save (p : Notification → Bool) (n n' : Notification)
    (hp : p n' = true) (hid : n'.id = n.id) :
    ∀ l : List Notification, l.find? p = some n →
      (l.map (fun m => if m.id = n.id then n' else m)).find? p = some n' := by
  intro l
  induction l with
  | nil => intro h; cases h
  | cons m rest ih =>
      intro hfind
      by_cases hm : p m = true
      · rw [List.find?_cons_of_pos _ hm] at hfind
        have hmn : m = n := by simpa using hfind
        subst hmn
        rw [List.map_cons, if_pos rfl]
        exact List.find?_cons_of_pos _ hp
      · rw [List.find?_cons_of_neg _ hm] at hfind
        rw [List.map_cons]
        by_cases hmid : m.id = n.id
        · rw [if_pos hmid]
          exact List.find?_cons_of_pos _ hp
        · rw [if_neg hmid, List.find?_cons_of_neg _ hm]
          exact ih hfind

/-! ### C5 — markAsRead scoping and first-write-wins idempotence -/

/-- C5: `markAsRead` 404s when no in-app notification with the id belongs
to the caller; on a record whose `opened_at` is already set it succeeds
without touching record or store; on an unread record it stamps
`opened_at = now`; and a repeated call returns the same `opened_at` the
first call produced (first-write-wins). -/
theorem markAsRead_first_write_wins (s : Store) (nid uid : String)
    (now now2 : Nat) :
    (s.notifications.find? (inAppMatch nid uid) = none →
      markAsRead s nid uid now =
        .error (.notFound "In-app notification not found")) ∧
    (∀ n t, s.notifications.find? (inAppMatch nid uid) = some n →
      n.opened_at = some t → markAsRead s nid uid now = .ok (n, s)) ∧
    (∀ n, s.notifications.find? (inAppMatch nid uid) = some n →
      n.opened_at = none →
      ∃ n' s', markAsRead s nid uid now = .ok (n', s') ∧
        n'.opened_at = some now) ∧
    (∀ n' s', markAsRead s nid uid now = .ok (n', s') →
      ∃ n'' s'', markAsRead s' nid uid now2 = .ok (n'', s'') ∧
        n''.opened_at = n'.opened_at) := by
  refine ⟨?_, ?_, ?_, ?_⟩
  · intro h
    rw [markAsRead, h]
  · intro n t hfind hop
    rw [markAsRead, hfind]
    simp [hop]
  · intro n hfind hop
    have heval : markAsRead s nid uid now =
        .ok ({ n with opened_at := some now, updated_at := now }, saveNotification s n { n with opened_at := some now, updated_at := now }) := by
      rw [markAsRead, hfind]
      simp [hop]
    exact ⟨_, _, heval, rfl⟩
  · intro n' s' hok
    rcases hfind : s.notifications.find? (inAppMatch nid uid) with _ | n
    · rw [markAsRead, hfind] at hok
      cases hok
    · rcases hop : n.opened_at with _ | t
      · have heval : markAsRead s nid uid now =
            .ok ({ n with opened_at := some now, updated_at := now }, saveNotification s n { n with opened_at := some now, updated_at := now }) := by
          rw [markAsRead, hfind]
          simp [hop]
        rw [heval] at hok
        obtain ⟨rfl, rfl⟩ : _ ∧ _ = s' := by simpa using hok
        have hp : inAppMatch nid uid
            { n with opened_at := some now, updated_at := now } = true := by
          have := List.find?_some hfind
          simpa [inAppMatch] using this
        have hfind2 :
            (saveNotification s n { n with opened_at := some now, updated_at := now }).notifications.find? (inAppMatch nid uid) =
              some { n with opened_at := some now, updated_at := now } :=
          find?_map_save (inAppMatch nid uid) n
            { n with opened_at := some now, updated_at := now } hp rfl
            s.notifications hfind
        have heval2 : markAsRead (saveNotification s n { n with opened_at := some now, updated_at := now }) nid uid now2 =
            .ok ({ n with opened_at := some now, updated_at := now }, saveNotification s n { n with opened_at := some now, updated_at := now }) := by
          rw [markAsRead, hfind2]
        exact ⟨_, _, heval2, rfl⟩
      · have heval2 : markAsRead s nid uid now2 = .ok (n, s) := by
          rw [markAsRead, hfind]
          simp [hop]
        have heval : markAsRead s nid uid now = .ok (n, s) := by
          rw [markAsRead, hfind]
          simp [hop]
        rw [heval] at hok
        obtain ⟨rfl, rfl⟩ : _ ∧ _ = s' := by simpa using hok
        exact ⟨n, s, heval2, rfl⟩

/-- Closed instance of the C5 theorem: marking the unread in-app
notification stamps its `opened_at` with the call time. -/
theorem markAsRead_first_write_wins_witness :
    ∃ n' s', markAsRead inAppStore "n3" "alice" 11 = .ok (n', s') ∧
      n'.opened_at = some 11 :=
  (markAsRead_first_write_wins inAppStore "n3" "alice" 11 0).2.2.1 inAppNotif
    (by decide) (by decide)

/-! ### C6 — analytics rate formulas -/

/-- C6: the three engagement rates of `getNotificationStats` follow the
spec's formulas — `delivery_rate = (delivered + sent) / (delivered + sent
+ failed) · 100`, `open_rate = opened / (delivered + sent) · 100`,
`click_rate = clicked / opened · 100` — each rounded to two decimals and
each `0` when its denominator is `0`; on an empty (scoped) record set all
three are `0` rather than a division failure. -/
theorem getNotificationStats_rate_formulas (s : Store) (userId : Option String) :
    ∀ d se f o c,
      d = countStatus (scopedNotifications s userId) .delivered →
      se = countStatus (scopedNotifications s userId) .sent →
      f = countStatus (scopedNotifications s userId) .failed →
      o = (scopedNotifications s userId).countP (fun n => n.opened_at.isSome) →
      c = (scopedNotifications s userId).countP (fun n => n.clicked_at.isSome) →
      ((getNotificationStats s userId).delivery_rate =
        if d + se + f = 0 then 0
        else round2 ((((d : ℚ) + se) / ((d : ℚ) + se + f)) * 100)) ∧
      ((getNotificationStats s userId).open_rate =
        if d + se = 0 then 0
        else round2 (((o : ℚ) / ((d : ℚ) + se)) * 100)) ∧
      ((getNotificationStats s userId).click_rate =
        if o = 0 then 0 else round2 (((c : ℚ) / (o : ℚ)) * 100)) ∧
      (scopedNotifications s userId = [] →
        (getNotificationStats s userId).delivery_rate = 0 ∧
        (getNotificationStats s userId).open_rate = 0 ∧
        (getNotificationStats s userId).click_rate = 0) := by
  intro d se f o c hd hse hf ho hc
  subst hd hse hf ho hc
  refine ⟨?_, ?_, ?_, ?_⟩
  · rw [getNotificationStats]
    by_cases h0 : countStatus (scopedNotifications s userId) .delivered +
        countStatus (scopedNotifications s userId) .sent +
        countStatus (scopedNotifications s userId) .failed = 0
    · rw [if_pos h0]
      simp only [h0]
      norm_num [round2, jsRound]
    · rw [if_neg h0]
      have hpos : 0 < countStatus (scopedNotifications s userId) .delivered +
          countStatus (scopedNotifications s userId) .sent +
          countStatus (scopedNotifications s userId) .failed :=
        Nat.pos_of_ne_zero h0
      rw [if_pos hpos]
      push_cast
      ring_nf
  · rw [getNotificationStats]
    by_cases h0 : countStatus (scopedNotifications s userId) .delivered +
        countStatus (scopedNotifications s userId) .sent = 0
    · rw [if_pos h0]
      simp only [h0]
      norm_num [round2, jsRound]
    · rw [if_neg h0]
      have hpos : 0 < countStatus (scopedNotifications s userId) .delivered +
          countStatus (scopedNotifications s userId) .sent :=
        Nat.pos_of_ne_zero h0
      rw [if_pos hpos]
  · rw [getNotificationStats]
    by_cases h0 : (scopedNotifications s userId).countP
        (fun n => n.opened_at.isSome) = 0
    · rw [if_pos h0]
      simp only [h0]
      norm_num [round2, jsRound]
    · rw [if_neg h0]
      have hpos : 0 < (scopedNotifications s userId).countP
          (fun n => n.opened_at.isSome) :=
        Nat.pos_of_ne_zero h0
      rw [if_pos hpos]
  · intro hempty
    rw [getNotificationStats, hempty]
    norm_num [countStatus, round2, jsRound]

/-- Closed instance of the C6 theorem: one delivered-opened-clicked
record plus one failed record gives `delivery_rate = 50`,
`open_rate = 100`, `click_rate = 100`. -/
theorem getNotificationStats_rate_formulas_witness :
    (getNotificationStats statsStore none).delivery_rate = 50 ∧
    (getNotificationStats statsStore none).open_rate = 100 ∧
    (getNotificationStats statsStore none).click_rate = 100 := by
  obtain ⟨h1, h2, h3, _⟩ :=
    getNotificationStats_rate_formulas statsStore none 1 0 1 1 1
      (by decide) (by decide) (by decide) (by decide) (by decide)
  refine ⟨?_, ?_, ?_⟩
  · rw [h1]
    norm_num [round2, jsRound]
  · rw [h2]
    norm_num [round2, jsRound]
  · rw [h3]
    norm_num [round2, jsRound]

/-! ### Field lemmas for applyUpdate -/

theorem applyUpdate_status (n : Notification) (dto : UpdateNotificationDto)
    (now : Nat) :
    (applyUpdate n dto now).status =
      (match dto.status with
       | some st => mapNotificationStatus st
       | none => n.status) := by
  obtain ⟨st, e, m, r, t1, t2, t3, t4⟩ := dto
  cases st <;> cases e <;> cases m <;> cases r <;> cases t1 <;> cases t2 <;>
    cases t3 <;> cases t4 <;> rfl

theorem applyUpdate_retry_count (n : Notification) (dto : UpdateNotificationDto)
    (now : Nat) :
    (applyUpdate n dto now).retry_count = dto.retry_count.getD n.retry_count := by
  obtain ⟨st, e, m, r, t1, t2, t3, t4⟩ := dto
  cases st <;> cases e <;> cases m <;> cases r <;> cases t1 <;> cases t2 <;>
    cases t3 <;> cases t4 <;> rfl

/-! ### C1 — status updates are applied without transition validation -/

/-- C1 counterexample: against a store whose only notification is
`delivered`, a status-update request for `pending` succeeds and the
record's status becomes `pending` — there is no invalid-state-transition
failure and the record does not stay unchanged. -/
theorem updateNotification_demotes_delivered :
    (findNotification deliveredStore "n4").map Notification.status =
      some NotificationStatus.delivered ∧
    (updateNotification deliveredStore "n4" demoteDto 60).map
      (fun r => r.1.status) = Except.ok NotificationStatus.pending := by
  decide

/-- C1 amended: `updateNotification` performs no state-machine check.  An
unknown id fails with not-found; on any existing notification the call
succeeds for every request and, when a status is requested, overwrites the
stored status with exactly the requested value — whatever the previous
status was. -/
theorem updateNotification_overwrites_status (s : Store) (id : String)
    (dto : UpdateNotificationDto) (now : Nat) :
    (findNotification s id = none →
      updateNotification s id dto now =
        .error (.notFound "Notification not found")) ∧
    (∀ n, findNotification s id = some n →
      updateNotification s id dto now =
        .ok (applyUpdate n dto now, saveNotification s n (applyUpdate n dto now)) ∧
      ∀ st, dto.status = some st → (applyUpdate n dto now).status = st) := by
  constructor
  · intro h
    rw [updateNotification, h]
  · intro n hfind
    constructor
    · rw [updateNotification, hfind]
    · intro st hst
      rw [applyUpdate_status, hst]
      exact mapNotificationStatus_id st

/-- Closed instance of the amended C1 theorem at the delivered record and
the demoting request. -/
theorem updateNotification_overwrites_status_witness :
    updateNotification deliveredStore "n4" demoteDto 60 =
      .ok (applyUpdate deliveredNotif demoteDto 60,
        saveNotification deliveredStore deliveredNotif
          (applyUpdate deliveredNotif demoteDto 60)) ∧
    ∀ st, demoteDto.status = some st →
      (applyUpdate deliveredNotif demoteDto 60).status = st :=
  (updateNotification_overwrites_status deliveredStore "n4" demoteDto 60).2
    deliveredNotif (by decide)

/-! ### Counting lemmas for bulk dispatch -/

/-- Every record the bulk loop builds comes from one entry of the found
recipient list. -/
theorem mem_buildBulkNotifications (dto : BulkNotificationDto) (now : Nat)
    (newIds : Nat → String) :
    ∀ rids i n, n ∈ buildBulkNotifications dto now newIds rids i →
      ∃ rid j, rid ∈ rids ∧ n = mkBulkNotification dto rid (newIds j) now := by
  intro rids
  induction rids with
  | nil =>
      intro i n h
      cases h
  | cons r rest ih =>
      intro i n h
      rw [buildBulkNotifications] at h
      rcases List.mem_cons.mp h with h1 | h2
      · exact ⟨r, i, List.mem_cons_self r rest, h1⟩
      · obtain ⟨rid, j, hmem, heq⟩ := ih (i + 1) n h2
        exact ⟨rid, j, List.mem_cons_of_mem r hmem, heq⟩

/-- The bulk loop creates per-recipient exactly as many records as the
recipient occurs in the found list. -/
theorem countP_buildBulkNotifications (dto : BulkNotificationDto) (now : Nat)
    (newIds : Nat → String) (r : String) :
    ∀ rids i, (buildBulkNotifications dto now newIds rids i).countP
        (fun n => decide (n.recipient_id = r)) =
      rids.countP (fun u => decide (u = r)) := by
  intro rids
  induction rids with
  | nil => intro i; rfl
  | cons a rest ih =>
      intro i
      rw [buildBulkNotifications, List.countP_cons, List.countP_cons, ih (i + 1)]
      rfl

theorem countP_eq_one_of_nodup_mem (l : List String) (a : String)
    (hN : l.Nodup) (ha : a ∈ l) :
    l.countP (fun u => decide (u = a)) = 1 := by
  induction l with
  | nil => cases ha
  | cons b rest ih =>
      rw [List.countP_cons]
      rcases List.mem_cons.mp ha with heq | hmem
      · have hnot : b ∉ rest := (List.nodup_cons.mp hN).1
        have hz : rest.countP (fun u => decide (u = a)) = 0 := by
          rw [List.countP_eq_zero]
          intro u hu hdec
          exact hnot (heq ▸ of_decide_eq_true hdec ▸ hu)
        rw [hz]
        simp [heq]
      · have hne : ¬ (b = a) := fun h =>
          (List.nodup_cons.mp hN).1 (h ▸ hmem)
        rw [ih (List.nodup_cons.mp hN).2 hmem]
        simp [hne]

theorem countP_eq_zero_of_not_mem (l : List String) (a : String) (ha : a ∉ l) :
    l.countP (fun u => decide (u = a)) = 0 := by
  rw [List.countP_eq_zero]
  intro u hu hdec
  exact ha (of_decide_eq_true hdec ▸ hu)

/-- Counting occurrences of `a` inside `filter (· ∈ ids)` drops the filter
once `a` itself satisfies it. -/
theorem countP_filter_mem (l ids : List String) (a : String) (ha : a ∈ ids) :
    (l.filter (fun u => decide (u ∈ ids))).countP (fun u => decide (u = a)) =
      l.countP (fun u => decide (u = a)) := by
  rw [List.countP_filter]
  apply List.countP_congr
  intro u hu
  constructor
  · intro h
    exact (Bool.and_elim_left h)
  · intro h
    have hua : u = a := of_decide_eq_true h
    subst hua
    simp [ha]

/-! ### C9 — duplicate recipient ids inside one bulk request -/

/-- C9 counterexample: a bulk request naming the existing recipient
`alice` twice creates one record (not two) — the loop runs over the
distinct user rows matched by `In(recipient_ids)`. -/
theorem createBulkNotifications_duplicate_one_record :
    ((createBulkNotifications aliceStore dupBulkDto bulkIds 80).1.total_created = 1) ∧
    ((createBulkNotifications aliceStore dupBulkDto bulkIds 80).1.notifications.countP
      (fun n => decide (n.recipient_id = "alice"))) = 1 := by
  decide

/-- C9 amended: however many times an existing recipient id appears in a
bulk request, exactly one record is created for it (given the user
table's uniqueness of ids): the batch collapses duplicates instead of
creating independent records per occurrence. -/
theorem createBulkNotifications_dedups_recipients (s : Store)
    (dto : BulkNotificationDto) (newIds : Nat → String) (now : Nat)
    (a : String) (hN : s.users.Nodup) (ha : a ∈ s.users)
    (hreq : a ∈ dto.recipient_ids) :
    ((createBulkNotifications s dto newIds now).1.notifications.countP
      (fun n => decide (n.recipient_id = a))) = 1 := by
  show (buildBulkNotifications dto now newIds
      (s.users.filter (fun u => decide (u ∈ dto.recipient_ids))) 0).countP
      (fun n => decide (n.recipient_id = a)) = 1
  rw [countP_buildBulkNotifications, countP_filter_mem _ _ _ hreq,
    countP_eq_one_of_nodup_mem _ _ hN ha]

/-- Closed instance of the amended C9 theorem at the duplicate request. -/
theorem createBulkNotifications_dedups_recipients_witness :
    ((createBulkNotifications aliceStore dupBulkDto bulkIds 80).1.notifications.countP
      (fun n => decide (n.recipient_id = "alice"))) = 1 :=
  createBulkNotifications_dedups_recipients aliceStore dupBulkDto bulkIds 80
    "alice" (by decide) (by decide) (by decide)

/-! ### C3 — bulk dispatch partial success -/

/-- C3: bulk dispatch creates exactly one record per requested recipient
id present in the user store, reports every absent requested id in the
failed list (creating nothing for it), and stamps every created record's
payload with the one `bulk_id` token derived from the dispatch time. -/
theorem createBulkNotifications_partial_success (s : Store)
    (dto : BulkNotificationDto) (newIds : Nat → String) (now : Nat)
    (hN : s.users.Nodup) :
    (∀ r, r ∈ dto.recipient_ids → r ∈ s.users →
      ((createBulkNotifications s dto newIds now).1.notifications.countP
        (fun n => decide (n.recipient_id = r))) = 1) ∧
    (∀ r, r ∈ dto.recipient_ids → r ∉ s.users →
      r ∈ (createBulkNotifications s dto newIds now).1.failed_recipients ∧
      ((createBulkNotifications s dto newIds now).1.notifications.countP
        (fun n => decide (n.recipient_id = r))) = 0) ∧
    (∀ n, n ∈ (createBulkNotifications s dto newIds now).1.notifications →
      payloadGet n.payload "bulk_id" =
        some (.str ("bulk_" ++ toString now))) := by
  refine ⟨?_, ?_, ?_⟩
  · intro r hreq hr
    show (buildBulkNotifications dto now newIds
        (s.users.filter (fun u => decide (u ∈ dto.recipient_ids))) 0).countP
        (fun n => decide (n.recipient_id = r)) = 1
    rw [countP_buildBulkNotifications, countP_filter_mem _ _ _ hreq,
      countP_eq_one_of_nodup_mem _ _ hN hr]
  · intro r hreq hr
    have hfound : r ∉ s.users.filter (fun u => decide (u ∈ dto.recipient_ids)) :=
      fun hmem => hr (List.mem_of_mem_filter hmem)
    constructor
    · show r ∈ dto.recipient_ids.filter (fun id => decide (id ∉
        s.users.filter (fun u => decide (u ∈ dto.recipient_ids))))
      exact List.mem_filter.mpr ⟨hreq, decide_eq_true hfound⟩
    · show (buildBulkNotifications dto now newIds
          (s.users.filter (fun u => decide (u ∈ dto.recipient_ids))) 0).countP
          (fun n => decide (n.recipient_id = r)) = 0
      rw [countP_buildBulkNotifications]
      exact countP_eq_zero_of_not_mem _ _ hfound
  · intro n hmem
    have hmem' : n ∈ buildBulkNotifications dto now newIds
        (s.users.filter (fun u => decide (u ∈ dto.recipient_ids))) 0 := hmem
    obtain ⟨rid, j, -, heq⟩ :=
      mem_buildBulkNotifications dto now newIds _ 0 n hmem'
    subst heq
    exact payloadGet_set_same _ "bulk_id" (.str ("bulk_" ++ toString now))

/-- Closed instance of the C3 theorem on the spec's example: recipients
`[A, B, C]` where only `B` does not exist — one record each for `A` and
`C`, none for `B`, and `B` reported failed. -/
theorem createBulkNotifications_partial_success_witness :
    ((createBulkNotifications bulkStore bulkDtoABC bulkIds 100).1.notifications.countP
      (fun n => decide (n.recipient_id = "A"))) = 1 ∧
    ((createBulkNotifications bulkStore bulkDtoABC bulkIds 100).1.notifications.countP
      (fun n => decide (n.recipient_id = "C"))) = 1 ∧
    "B" ∈ (createBulkNotifications bulkStore bulkDtoABC bulkIds 100).1.failed_recipients ∧
    ((createBulkNotifications bulkStore bulkDtoABC bulkIds 100).1.notifications.countP
      (fun n => decide (n.recipient_id = "B"))) = 0 := by
  obtain ⟨h1, h2, h3⟩ :=
    createBulkNotifications_partial_success bulkStore bulkDtoABC bulkIds 100
      (by decide)
  exact ⟨h1 "A" (by decide) (by decide), h1 "C" (by decide) (by decide),
    (h2 "B" (by decide) (by decide)).1, (h2 "B" (by decide) (by decide)).2⟩

/-! ### C8 — how each operation moves retry_count -/

/-- C8 counterexample: the record starts with `retry_count = 2`; a status
update carrying `retry_count = 0` succeeds and stores `0 < 2`, so
`retry_count` is not monotonically non-decreasing across
`updateNotification`. -/
theorem updateNotification_decreases_retry_count :
    (findNotification retryStore "n1").map Notification.retry_count = some 2 ∧
    updateNotification retryStore "n1" zeroRetryDto 70 =
      .ok (applyUpdate failedNotif zeroRetryDto 70,
        saveNotification retryStore failedNotif
          (applyUpdate failedNotif zeroRetryDto 70)) ∧
    (applyUpdate failedNotif zeroRetryDto 70).retry_count = 0 := by
  decide

/-- C8 amended: `retry_count` starts at `0` on single and bulk creation,
is incremented exactly once per successful retry, and is untouched by
`markAsRead` and `markAllAsRead`; `updateNotification`, however, stores
whatever `retry_count` the request carries (the previous value only
survives when the request omits the field), so the counter can decrease
across a status update. -/
theorem retry_count_dynamics (s : Store) (hN : s.idsNodup) :
    (∀ dto newId now n s', createNotification s dto newId now = .ok (n, s') →
      n.retry_count = 0) ∧
    (∀ dto newIds now n,
      n ∈ (createBulkNotifications s dto newIds now).1.notifications →
      n.retry_count = 0) ∧
    (∀ id now n' s', retryNotification s id now = .ok (n', s') →
      ∃ n, findNotification s id = some n ∧
        n'.retry_count = n.retry_count + 1) ∧
    (∀ nid uid now n' s', markAsRead s nid uid now = .ok (n', s') →
      s'.notifications.map Notification.retry_count =
        s.notifications.map Notification.retry_count) ∧
    (∀ uid now,
      (markAllAsRead s uid now).2.notifications.map Notification.retry_count =
        s.notifications.map Notification.retry_count) ∧
    (∀ id dto now n' s', updateNotification s id dto now = .ok (n', s') →
      ∃ n, findNotification s id = some n ∧
        n'.retry_count = dto.retry_count.getD n.retry_count) := by
  have hinj := List.inj_on_of_nodup_map hN
  refine ⟨?_, ?_, ?_, ?_, ?_, ?_⟩
  · intro dto newId now n s' h
    by_cases hmem : dto.recipient_id ∈ s.users
    · rw [createNotification, if_pos hmem] at h
      obtain ⟨hn, -⟩ : _ ∧ _ = s' := by simpa using h
      rw [← hn]
    · rw [createNotification, if_neg hmem] at h
      cases h
  · intro dto newIds now n hmem
    obtain ⟨rid, j, -, heq⟩ :=
      mem_buildBulkNotifications dto now newIds _ 0 n hmem
    subst heq
    rfl
  · intro id now n' s' h
    rcases hfind : findNotification s id with _ | n
    · rw [retryNotification, hfind] at h
      cases h
    · by_cases hst : n.status = NotificationStatus.failed
      · have heval : retryNotification s id now =
            .ok (retryReset n now, saveNotification s n (retryReset n now)) := by
          rw [retryNotification, hfind]
          simp [hst]
        rw [heval] at h
        obtain ⟨hn, -⟩ : _ ∧ _ = s' := by simpa using h
        exact ⟨n, rfl, by rw [← hn]; rfl⟩
      · have heval : retryNotification s id now =
            .error (.badRequest "Only failed notifications can be retried") := by
          rw [retryNotification, hfind]
          simp [hst]
        rw [heval] at h
        cases h
  · intro nid uid now n' s' h
    rcases hfind : s.notifications.find? (inAppMatch nid uid) with _ | n
    · rw [markAsRead, hfind] at h
      cases h
    · have hn_mem : n ∈ s.notifications := List.mem_of_find?_eq_some hfind
      rcases hop : n.opened_at with _ | t
      · have heval : markAsRead s nid uid now =
            .ok ({ n with opened_at := some now, updated_at := now }, saveNotification s n { n with opened_at := some now, updated_at := now }) := by
          rw [markAsRead, hfind]
          simp [hop]
        rw [heval] at h
        obtain ⟨-, rfl⟩ : _ ∧ _ = s' := by simpa using h
        show (s.notifications.map fun m =>
            if m.id = n.id then { n with opened_at := some now, updated_at := now } else m).map
            Notification.retry_count = _
        rw [List.map_map]
        apply List.map_congr_left
        intro m hm
        by_cases hid : m.id = n.id
        · have hmn : m = n := hinj hm hn_mem hid
          subst hmn
          simp [Function.comp, hid]
        · simp [Function.comp, hid]
      · have heval : markAsRead s nid uid now = .ok (n, s) := by
          rw [markAsRead, hfind]
          simp [hop]
        rw [heval] at h
        obtain ⟨-, rfl⟩ : _ ∧ _ = s' := by simpa using h
        rfl
  · intro uid now
    show (s.notifications.map fun n =>
        if unreadInApp uid n then { n with opened_at := some now, updated_at := now } else n).map
        Notification.retry_count = _
    rw [List.map_map]
    apply List.map_congr_left
    intro m hm
    by_cases h : unreadInApp uid m
    · simp [Function.comp, h]
    · simp [Function.comp, h]
  · intro id dto now n' s' h
    rcases hfind : findNotification s id with _ | n
    · rw [updateNotification, hfind] at h
      cases h
    · have heval : updateNotification s id dto now =
          .ok (applyUpdate n dto now, saveNotification s n (applyUpdate n dto now)) := by
        rw [updateNotification, hfind]
      rw [heval] at h
      obtain ⟨hn, -⟩ : _ ∧ _ = s' := by simpa using h
      exact ⟨n, rfl, by rw [← hn, applyUpdate_retry_count]⟩

/-- Closed instance of the amended C8 theorem: retrying the failed record
bumps its counter from 2 to 3. -/
theorem retry_count_dynamics_witness :
    ∃ n, findNotification retryStore "n1" = some n ∧
      (retryReset failedNotif 9).retry_count = n.retry_count + 1 :=
  (retry_count_dynamics retryStore (by decide)).2.2.1 "n1" 9
    (retryReset failedNotif 9)
    (saveNotification retryStore failedNotif (retryReset failedNotif 9))
    (by decide)

/-! ### C10 — per-recipient isolation of the scoped operations -/

/-- C10 counterexample: with the caller id the empty string — falsy in
JS, so the `if (userId)` guard skips the recipient filter — a caller
different from the record's recipient reads the record instead of
getting a not-found error. -/
theorem getNotificationById_empty_caller_reads :
    getNotificationById inAppStore "n3" (some "") = .ok inAppNotif ∧
    "" ≠ inAppNotif.recipient_id := by
  decide

/-- C10 amended: for every caller id `u` other than the record's
recipient, `markAsRead` always fails with not-found, and
`getNotificationById` and `deleteNotification` fail with not-found
whenever `u` is nonempty (the empty string disables their recipient
filter); each failure leaves the store untouched in the `Except`
embedding. -/
theorem scoped_access_isolated (s : Store) (n : Notification) (u : String)
    (hN : s.idsNodup) (hn : n ∈ s.notifications)
    (hne : u ≠ n.recipient_id) :
    (u ≠ "" → getNotificationById s n.id (some u) =
      .error (.notFound "Notification not found or access denied")) ∧
    (∀ now, markAsRead s n.id u now =
      .error (.notFound "In-app notification not found")) ∧
    (u ≠ "" → deleteNotification s n.id (some u) =
      .error (.notFound "Notification not found or access denied")) := by
  have hinj := List.inj_on_of_nodup_map hN
  have hscope : ∀ hu : u ≠ "",
      s.notifications.find? (idScopedMatch n.id (some u)) = none := by
    intro hu
    rw [List.find?_eq_none]
    intro m hm hpred
    have htr : strTruthy (some u) = true := by simp [strTruthy, hu]
    simp only [idScopedMatch, htr, if_true, Bool.and_eq_true,
      decide_eq_true_eq, Option.getD_some] at hpred
    obtain ⟨hid, hrec⟩ := hpred
    have hmn : m = n := hinj hm hn hid
    exact hne ((hmn ▸ hrec).symm)
  have hscope2 : s.notifications.find? (inAppMatch n.id u) = none := by
    rw [List.find?_eq_none]
    intro m hm hpred
    simp only [inAppMatch, Bool.and_eq_true, decide_eq_true_eq] at hpred
    obtain ⟨⟨hid, hrec⟩, -⟩ := hpred
    have hmn : m = n := hinj hm hn hid
    exact hne ((hmn ▸ hrec).symm)
  refine ⟨fun hu => ?_, fun now => ?_, fun hu => ?_⟩
  · rw [getNotificationById, hscope hu]
  · rw [markAsRead, hscope2]
  · rw [deleteNotification, hscope hu]

/-- Closed instance of the amended C10 theorem: the stranger `bob` can
neither read, mark as read, nor delete `alice`'s notification. -/
theorem scoped_access_isolated_witness :
    getNotificationById inAppStore "n3" (some "bob") =
      .error (.notFound "Notification not found or access denied") ∧
    markAsRead inAppStore "n3" "bob" 12 =
      .error (.notFound "In-app notification not found") ∧
    deleteNotification inAppStore "n3" (some "bob") =
      .error (.notFound "Notification not found or access denied") := by
  obtain ⟨h1, h2, h3⟩ := scoped_access_isolated inAppStore inAppNotif "bob"
    (by decide) (by decide) (by decide)
  exact ⟨h1 (by decide), h2 12, h3 (by decide)⟩

end SuperSquads
